import Mathlib

/-!
Verification of the Contract-Ai evaluation harness (src/eval/run_eval.py)
and the field-extraction contract described by the repository tests
(src/test/test_extraction.py).

Modelling conventions:
* Python floats are modelled as exact rationals; every constant involved
  (0.5, 0.1, 0.7, 0.8) is a short decimal literal, so the idealisation is
  exact on the quantities the spec talks about.
* Rational arithmetic is written with the executable wrappers `qadd`,
  `qmul`, `qdiv` (proved equal to `+`, `*`, `/` below) so that every
  definition evaluates by kernel reduction on concrete inputs.
* Strings are Lean strings; Python `str.lower` is `pyLower` (per-character
  ASCII lowering, which agrees with Python on the ASCII data involved).
* A JSON dict with a varying key set is a structure of `Option` fields;
  `none` models an absent key.
-/

namespace ContractAi

/-! ### Executable rational arithmetic -/

/-- Executable multiplication on `ℚ` (equal to `*`, see `qmul_eq`). -/
def qmul (a b : ℚ) : ℚ := Rat.divInt (a.num * b.num) (a.den * b.den)

/-- Executable addition on `ℚ` (equal to `+`, see `qadd_eq`). -/
def qadd (a b : ℚ) : ℚ :=
  Rat.divInt (a.num * b.den + b.num * a.den) (a.den * b.den)

/-- Executable division on `ℚ` (equal to `/`, see `qdiv_eq`). -/
def qdiv (a b : ℚ) : ℚ := Rat.divInt (a.num * b.den) (a.den * b.num)

theorem qmul_eq (a b : ℚ) : qmul a b = a * b := by
  rw [qmul, ← Rat.divInt_mul_divInt' a.num a.den b.num b.den,
    Rat.num_divInt_den, Rat.num_divInt_den]

theorem qadd_eq (a b : ℚ) : qadd a b = a + b := by
  have ha : (a.den : ℤ) ≠ 0 := Int.natCast_ne_zero.mpr a.den_nz
  have hb : (b.den : ℤ) ≠ 0 := Int.natCast_ne_zero.mpr b.den_nz
  rw [qadd, ← Rat.divInt_add_divInt a.num b.num ha hb,
    Rat.num_divInt_den, Rat.num_divInt_den]

theorem qdiv_eq (a b : ℚ) : qdiv a b = a / b := by
  rw [qdiv, ← Rat.divInt_div_divInt a.num a.den b.num b.den,
    Rat.num_divInt_den, Rat.num_divInt_den]

/-- Python `min(a, b)` on two numbers: `a` when `a ≤ b`, else `b`. -/
def pymin (a b : ℚ) : ℚ := if a ≤ b then a else b

/-- Python `sum(...)`: left fold of `+` starting at `0`. -/
def pysum (l : List ℚ) : ℚ := l.foldl qadd 0

theorem pysum_foldl (acc : ℚ) (l : List ℚ) : l.foldl qadd acc = acc + l.sum := by
  induction l generalizing acc with
  | nil => simp
  | cons x xs ih => simp [List.foldl, ih, qadd_eq, add_assoc]

/-- The executable sum agrees with the Mathlib list sum. -/
theorem pysum_eq (l : List ℚ) : pysum l = l.sum := by
  simp [pysum, pysum_foldl]

/-! ### Strings -/

/-- Whether `needle` occurs at the head of `hay` (character-wise equality). -/
def headMatch : List Char → List Char → Bool
  | [], _ => true
  | _ :: _, [] => false
  | a :: as, b :: bs => a == b && headMatch as bs

/-- Whether `needle` occurs somewhere in `hay`; models the Python substring
test `needle in hay` (an empty needle always matches). -/
def subMatch (needle : List Char) : List Char → Bool
  | [] => headMatch needle []
  | c :: rest => headMatch needle (c :: rest) || subMatch needle rest

/-- Python `needle in hay` on strings. -/
def strIn (needle hay : String) : Bool :=
  subMatch needle.toList hay.toList

/-- Python `s.lower()` (per-character ASCII lowering). -/
def pyLower (s : String) : String := String.mk (s.toList.map Char.toLower)

/-! ### Data model of run_eval.py -/

/-- One record of the evaluation question set (eval/qa_eval_set.json):
`{id, question, expected_keywords}`. -/
structure EvalQuestion where
  id : Nat
  question : String
  expected_keywords : List String
deriving Repr, DecidableEq

/-- The observable part of one `POST /ask` HTTP exchange as run_eval.py
reads it: the status code, the answer field defaulted to the empty string,
and the citations list defaulted to empty (payloads treated abstractly). -/
structure AskResponse where
  status_code : Nat
  answer : String
  citations : List String
deriving Repr, DecidableEq

/-- The dict returned by `evaluate_question`.  The error branch returns
only `question_id`, `score` and `reason`; the success branch returns
`question_id`, `question`, `answer`, `score`, `matched_keywords` and
`has_citations`.  A field whose key is absent from the dict is `none`. -/
structure EvalResult where
  question_id : Nat
  score : ℚ
  question : Option String
  answer : Option String
  matched_keywords : Option (List String)
  has_citations : Option Bool
  reason : Option String
deriving Repr, DecidableEq

/-- run_eval.py line 86: the fixed list of negative-signal phrases. -/
def negative_phrases : List String :=
  ["not found", "cannot find", "no information", "not in the document"]

/-- run_eval.py lines 74-79: the keywords of `q` that occur
case-insensitively in the (already lowercased) answer text. -/
def matchedKeywords (q : EvalQuestion) (answer : String) : List String :=
  q.expected_keywords.filter (fun keyword => strIn (pyLower keyword) answer)

/-- run_eval.py lines 73-83: the base keyword-ratio score, `0.0` for an
empty keyword list. -/
def baseScore (q : EvalQuestion) (answer : String) : ℚ :=
  if 0 < q.expected_keywords.length then
    qdiv ((matchedKeywords q answer).length : ℚ) ((q.expected_keywords.length : ℚ))
  else 0

/-- run_eval.py lines 73-97, the scoring pipeline of the success branch:
keyword-ratio base score, then the negative-signal penalty (multiply by
0.5), then the citation bonus (+0.1), then `min(score, 1.0)`. -/
def successScore (question : EvalQuestion) (response : AskResponse) : ℚ :=
  let answer := pyLower response.answer
  let score0 := baseScore question answer
  let has_negative := negative_phrases.any (fun phrase => strIn phrase answer)
  let score1 := if has_negative then qmul score0 (mkRat 1 2) else score0
  let has_citations : Bool := 0 < response.citations.length
  let score2 := if has_citations then qadd score1 (mkRat 1 10) else score1
  pymin score2 1

/-- run_eval.py lines 51-113, `evaluate_question`: a non-200 response
yields the short error dict with score `0.0`; a 200 response is scored by
`successScore`.  `document_ids` is the unused second parameter of the
Python function. -/
def evaluate_question (question : EvalQuestion) (document_ids : List String)
    (response : AskResponse) : EvalResult :=
  if response.status_code ≠ 200 then
    { question_id := question.id
      score := 0
      question := none
      answer := none
      matched_keywords := none
      has_citations := none
      reason := some ("API error: " ++ toString response.status_code) }
  else
    { question_id := question.id
      score := successScore question response
      question := some question.question
      answer := some response.answer
      matched_keywords := some (matchedKeywords question (pyLower response.answer))
      has_citations := some (decide (0 < response.citations.length))
      reason := none }

/-- run_eval.py lines 161-168: grade banding over the average score.  The
grade strings carry the exact emoji prefixes of the source. -/
def grade (avg_score : ℚ) : String :=
  if mkRat 8 10 ≤ avg_score then "🌟 EXCELLENT"
  else if mkRat 7 10 ≤ avg_score then "✅ GOOD"
  else if mkRat 5 10 ≤ avg_score then "⚠️  FAIR"
  else "❌ NEEDS IMPROVEMENT"

/-- Everything one run of run_eval.py observes from the outside world:
the health probe (`none` models a connection error, `some c` a reply with
status `c`), the document ids returned by `upload_test_documents`, the
loaded question set, and the `/ask` response to the i-th question request
issued (requests are issued strictly in question order). -/
structure Env where
  health : Option Nat
  uploaded_doc_ids : List String
  eval_set : List EvalQuestion
  ask : Nat → AskResponse

/-- run_eval.py lines 144-147: the sequential per-question loop; the i-th
question is evaluated against the i-th `/ask` response. -/
def eval_results (env : Env) : List EvalResult :=
  env.eval_set.enum.map fun p => evaluate_question p.2 env.uploaded_doc_ids (env.ask p.1)

/-- run_eval.py lines 158 and 177: the count of results whose score is at
least 0.7. -/
def passCount (results : List EvalResult) : Nat :=
  (results.filter fun r => decide (mkRat 7 10 ≤ r.score)).length

/-- The dict persisted to eval/eval_results.json (run_eval.py lines 173-179). -/
structure EvalSummary where
  average_score : ℚ
  total_questions : Nat
  pass_rate : ℚ
  results : List EvalResult
deriving Repr, DecidableEq

/-- Outcome of one run: `exits c` models `sys.exit(c)` during setup,
`crashes` an uncaught exception (the `ZeroDivisionError` of line 150 on an
empty question set), `completes s` a run that wrote the summary `s`. -/
inductive RunResult where
  | exits (code : Nat)
  | crashes
  | completes (summary : EvalSummary)
deriving Repr, DecidableEq

/-- run_eval.py lines 115-188, `run_evaluation`: abort with exit code 1
when the health probe raises or returns non-200, or when no documents
were uploaded; otherwise evaluate every question in order, then write the
summary.  `avg_score` divides by `len(results)`, so an empty question set
crashes before any summary is written. -/
def run_evaluation (env : Env) : RunResult :=
  match env.health with
  | none => RunResult.exits 1
  | some status =>
    if status ≠ 200 then RunResult.exits 1
    else if env.uploaded_doc_ids.isEmpty then RunResult.exits 1
    else if (eval_results env).length = 0 then RunResult.crashes
    else
      RunResult.completes
        { average_score := qdiv (pysum ((eval_results env).map EvalResult.score))
            ((eval_results env).length : ℚ)
          total_questions := (eval_results env).length
          pass_rate := qdiv ((passCount (eval_results env) : ℚ))
            (((eval_results env).length : ℚ))
          results := eval_results env }

/-! ### Field extraction engine

The extraction service itself (`app/services/extraction_service.py`) is
not part of the sources; only its tests (src/test/test_extraction.py) and
the spec describe it.  The definitions below are therefore modelled from
the spec, section 4.1. -/

/-- Modelled from the spec: the typed record produced by the extraction
engine (spec section 3, `ExtractedFields`). -/
structure ExtractedFields where
  parties : List String
  effective_date : Option String
  governing_law : Option String
  liability_cap : Option Nat
  signatures : List (String × String × String)
deriving Repr, DecidableEq

/-- Modelled from the spec: catch an internal pattern-matching error and
degrade the optional field to absent. -/
def recoverOpt {α : Type} (e : Except String (Option α)) : Option α :=
  match e with
  | Except.ok v => v
  | Except.error _ => none

/-- Modelled from the spec: catch an internal pattern-matching error and
degrade the sequence field to empty. -/
def recoverList {α : Type} (e : Except String (List α)) : List α :=
  match e with
  | Except.ok v => v
  | Except.error _ => []

/-- Modelled from the spec: the fixed length threshold of the truncation
policy (the spec leaves the numeric value unspecified). -/
def MAX_DOC_CHARS : Nat := 50000

/-- Modelled from the spec: documents beyond the threshold are truncated
before scanning, preserving the head and the tail of the document. -/
def truncateDoc (text : List Char) : List Char :=
  if text.length ≤ MAX_DOC_CHARS then text
  else text.take (MAX_DOC_CHARS / 2) ++ text.drop (text.length - MAX_DOC_CHARS / 2)

/-- Leading decimal digits of a character list, and the remainder. -/
def takeDigits : List Char → List Char × List Char
  | [] => ([], [])
  | c :: rest =>
    if c.isDigit then
      let (ds, r) := takeDigits rest
      (c :: ds, r)
    else ([], c :: rest)

/-- Numeric value of a list of decimal digit characters. -/
def digitsToNat (ds : List Char) : Nat :=
  ds.foldl (fun n c => 10 * n + (c.toNat - 48)) 0

/-- Modelled from the spec: the entity-introduction role markers used to
detect parties. -/
def partyMarkers : List String :=
  ["Disclosing Party", "Receiving Party", "Party A", "Party B"]

/-- Modelled from the spec: party detection by role-marker patterns,
deduplicated, first-seen order, empty on zero matches. -/
def extractParties (text : List Char) : Except String (List String) :=
  Except.ok ((partyMarkers.filter fun m => subMatch m.toList text).dedup)

/-- Month names of the long date format, with month numbers. -/
def monthNames : List (String × Nat) :=
  [("January", 1), ("February", 2), ("March", 3), ("April", 4), ("May", 5),
   ("June", 6), ("July", 7), ("August", 8), ("September", 9),
   ("October", 10), ("November", 11), ("December", 12)]

/-- Parse `MM/DD/YYYY` at the head of the list; `(month, day, year)`. -/
def parseSlashAt (cs : List Char) : Option (Nat × Nat × Nat) :=
  let (m, r1) := takeDigits cs
  if m.length = 0 ∨ 2 < m.length then none
  else
    match r1 with
    | '/' :: r2 =>
      let (d, r3) := takeDigits r2
      if d.length = 0 ∨ 2 < d.length then none
      else
        match r3 with
        | '/' :: r4 =>
          let (y, _) := takeDigits r4
          if y.length = 4 then some (digitsToNat m, digitsToNat d, digitsToNat y)
          else none
        | _ => none
    | _ => none

/-- Parse `YYYY-MM-DD` at the head of the list; `(month, day, year)`. -/
def parseIsoAt (cs : List Char) : Option (Nat × Nat × Nat) :=
  let (y, r1) := takeDigits cs
  if y.length ≠ 4 then none
  else
    match r1 with
    | '-' :: r2 =>
      let (m, r3) := takeDigits r2
      if m.length ≠ 2 then none
      else
        match r3 with
        | '-' :: r4 =>
          let (d, _) := takeDigits r4
          if d.length = 2 then some (digitsToNat m, digitsToNat d, digitsToNat y)
          else none
        | _ => none
    | _ => none

/-- Parse `Month DD, YYYY` at the head of the list; `(month, day, year)`. -/
def parseLongAt (cs : List Char) : Option (Nat × Nat × Nat) :=
  match monthNames.find? (fun mp => headMatch mp.1.toList cs) with
  | none => none
  | some mp =>
    match cs.drop mp.1.length with
    | ' ' :: r1 =>
      let (d, r2) := takeDigits r1
      if d.length = 0 ∨ 2 < d.length then none
      else
        match r2 with
        | ',' :: ' ' :: r3 =>
          let (y, _) := takeDigits r3
          if y.length = 4 then some (mp.2, digitsToNat d, digitsToNat y)
          else none
        | _ => none
    | _ => none

/-- Modelled from the spec: try the three supported formats in the fixed
priority order (slash, ISO, long month) at each position; the first
successful parse wins. -/
def scanDate : List Char → Option (Nat × Nat × Nat)
  | [] => none
  | c :: rest =>
    match parseSlashAt (c :: rest) with
    | some r => some r
    | none =>
      match parseIsoAt (c :: rest) with
      | some r => some r
      | none =>
        match parseLongAt (c :: rest) with
        | some r => some r
        | none => scanDate rest

/-- Zero-pad a number to two digits. -/
def pad2 (n : Nat) : String := if n < 10 then "0" ++ toString n else toString n

/-- Normalize a parsed `(month, day, year)` to `YYYY-MM-DD`. -/
def dateToIso (d : Nat × Nat × Nat) : String :=
  toString d.2.2 ++ "-" ++ pad2 d.1 ++ "-" ++ pad2 d.2.1

/-- Modelled from the spec: the labels that introduce an effective date. -/
def dateLabels : List String := ["Effective Date", "dated", "entered into as of"]

/-- The remainder of `hay` after the first occurrence of `needle`, if any. -/
def dropAfter (needle : List Char) : List Char → Option (List Char)
  | [] => if headMatch needle [] then some ([] : List Char) else none
  | c :: rest =>
    if headMatch needle (c :: rest) then some ((c :: rest).drop needle.length)
    else dropAfter needle rest

/-- First date found after any of the labels, in label order. -/
def firstLabeledDate (text : List Char) : List String → Option (Nat × Nat × Nat)
  | [] => none
  | l :: ls =>
    match dropAfter l.toList text with
    | some rest =>
      match scanDate rest with
      | some d => some d
      | none => firstLabeledDate text ls
    | none => firstLabeledDate text ls

/-- Modelled from the spec: a labeled date parsed against the three
supported formats, normalized; `none` when absent. -/
def extractEffectiveDate (text : List Char) : Except String (Option String) :=
  match firstLabeledDate text dateLabels with
  | some d => Except.ok (some (dateToIso d))
  | none => Except.ok none

/-- Split a character list at every occurrence of `sep`. -/
def splitOnChar (sep : Char) : List Char → List (List Char)
  | [] => [[]]
  | c :: rest =>
    let ls := splitOnChar sep rest
    if c = sep then [] :: ls
    else
      match ls with
      | [] => [[c]]
      | l :: ls2 => (c :: l) :: ls2

/-- Strip leading and trailing whitespace characters. -/
def trimChars (cs : List Char) : List Char :=
  ((cs.dropWhile Char.isWhitespace).reverse.dropWhile Char.isWhitespace).reverse

/-- The jurisdiction phrase: everything up to the sentence boundary,
trimmed. -/
def jurisdictionOf (rest : List Char) : String :=
  String.mk (trimChars (rest.takeWhile fun c => c ≠ '.'))

/-- The governing-law capture: the jurisdiction phrase following
"governed by the laws of", `none` when the clause is absent or the
captured phrase is blank. -/
def govLawOf (text : List Char) : Option String :=
  match dropAfter "governed by the laws of".toList text with
  | some rest =>
    if jurisdictionOf rest = "" then none else some (jurisdictionOf rest)
  | none => none

/-- Modelled from the spec: capture the jurisdiction phrase after
"governed by the laws of", up to the sentence boundary. -/
def extractGoverningLaw (text : List Char) : Except String (Option String) :=
  Except.ok (govLawOf text)

/-- Modelled from the spec: a currency-formatted numeric token inside a
liability/limitation clause; commas are discarded. -/
def extractLiabilityCap (text : List Char) : Except String (Option Nat) :=
  let lowered := text.map Char.toLower
  if subMatch "liability".toList lowered || subMatch "limitation".toList lowered then
    match dropAfter ['$'] text with
    | some rest =>
      let numChars := (rest.takeWhile fun c => c.isDigit || c == ',').filter (·.isDigit)
      if numChars.isEmpty then Except.ok none
      else Except.ok (some (digitsToNat numChars))
    | none => Except.ok none
  else Except.ok none

/-- A `Name, Title, Company` line: exactly two commas, no blank part. -/
def parseSignLine (line : List Char) : Option (String × String × String) :=
  match (splitOnChar ',' line).map trimChars with
  | [n, t, c] =>
    if n.isEmpty || t.isEmpty || c.isEmpty then none
    else some (String.mk n, String.mk t, String.mk c)
  | _ => none

/-- Modelled from the spec: comma-separated `Name, Title, Company` line
patterns in a trailing block of the document. -/
def extractSignatures (text : List Char) : Except String (List (String × String × String)) :=
  Except.ok ((((splitOnChar '\n' text).reverse.take 10).reverse).filterMap parseSignLine)

/-- Modelled from the spec: `extract_fields` of the extraction service
(`app/services/extraction_service.py`, absent from the sources).  The
document is truncated to the fixed threshold, then each field is extracted
independently, with internal errors degraded to absent/empty. -/
def extract_fields (text : String) : ExtractedFields :=
  let cs := truncateDoc text.toList
  { parties := recoverList (extractParties cs)
    effective_date := recoverOpt (extractEffectiveDate cs)
    governing_law := recoverOpt (extractGoverningLaw cs)
    liability_cap := recoverOpt (extractLiabilityCap cs)
    signatures := recoverList (extractSignatures cs) }

/-- The spec invariants an `ExtractedFields` value must satisfy to be
well-formed: optional fields are `none` when absent, never empty strings. -/
def WellFormedExtracted (f : ExtractedFields) : Prop :=
  f.effective_date ≠ some "" ∧ f.governing_law ≠ some ""

/-- A sample environment whose health probe raises a connection error. -/
def sampleEnvDown : Env :=
  { health := none
    uploaded_doc_ids := []
    eval_set := []
    ask := fun _ => ⟨200, "", []⟩ }

/-- A sample healthy one-question environment for concrete runs. -/
def sampleEnvC5 : Env :=
  { health := some 200
    uploaded_doc_ids := ["d1"]
    eval_set := [⟨1, "q1", ["alpha"]⟩]
    ask := fun _ => ⟨200, "alpha beta", []⟩ }

def sampleSummaryC5 : EvalSummary :=
  { average_score := 1
    total_questions := 1
    pass_rate := 1
    results := [{ question_id := 1, score := 1, question := some "q1",
                  answer := some "alpha beta",
                  matched_keywords := some ["alpha"],
                  has_citations := some false, reason := none }] }

/-- The sample NDA text of test_extraction_basic_nda. -/
def ndaSampleText : String :=
  "NON-DISCLOSURE AGREEMENT\n\nThis Agreement is entered into as of January 15, 2024 (the Effective Date)\nby and between Acme Corporation (Disclosing Party) and Tech Solutions Inc (Receiving Party).\n\n2. Governing Law: This Agreement shall be governed by the laws of the State of California.\n\n3. Liability: In no event shall either liability exceed $100,000 USD.\n\nSigned:\nJohn Smith, CEO, Acme Corporation\nJane Doe, CTO, Tech Solutions Inc\n"

example :
    (evaluate_question ⟨1, "q", ["California", "two years"]⟩ []
      ⟨200, "California law applies", []⟩).score = mkRat 1 2 := by decide

example :
    (evaluate_question ⟨1, "q", ["California", "two years"]⟩ []
      ⟨200, "California law applies", ["c"]⟩).score = mkRat 3 5 := by decide

example :
    (evaluate_question ⟨1, "q", ["California", "two years"]⟩ []
      ⟨200, "California, but it was not found", ["c"]⟩).score = mkRat 7 20 := by
  decide

/-! ### Shared helper lemmas -/

theorem pymin_eq_min (a b : ℚ) : pymin a b = min a b := by
  simp [pymin, min_def]

theorem evaluate_question_qid (q : EvalQuestion) (ids : List String)
    (r : AskResponse) : (evaluate_question q ids r).question_id = q.id := by
  unfold evaluate_question
  split <;> rfl

theorem mkRat_half : (mkRat 1 2 : ℚ) = 1 / 2 := by
  norm_num [Rat.mkRat_eq_divInt, Rat.divInt_eq_div]

theorem mkRat_tenth : (mkRat 1 10 : ℚ) = 1 / 10 := by
  norm_num [Rat.mkRat_eq_divInt, Rat.divInt_eq_div]

theorem mkRat_seven_tenths : (mkRat 7 10 : ℚ) = 0.7 := by
  norm_num [Rat.mkRat_eq_divInt, Rat.divInt_eq_div]

theorem baseScore_nonneg (q : EvalQuestion) (a : String) : 0 ≤ baseScore q a := by
  unfold baseScore
  split
  · rw [qdiv_eq]
    positivity
  · exact le_refl 0

theorem baseScore_le_one (q : EvalQuestion) (a : String) : baseScore q a ≤ 1 := by
  unfold baseScore
  split
  · rename_i hpos
    rw [qdiv_eq]
    rw [div_le_one (by exact_mod_cast hpos)]
    exact_mod_cast List.length_filter_le _ _
  · exact zero_le_one

/-! ### Claims -/

/-- C10: the result of evaluate_question is independent of the
document_ids argument; two calls differing only in document_ids produce
identical results (the Python function never reads the parameter). -/
theorem C10_document_ids_independent (q : EvalQuestion) (resp : AskResponse)
    (ids1 ids2 : List String) :
    evaluate_question q ids1 resp = evaluate_question q ids2 resp := rfl

/-- C9: the results sequence has the same length as the question set and
the i-th result carries the question_id of the i-th question, so output
ordering matches input ordering. -/
theorem C9_order_preserved (env : Env) :
    (eval_results env).length = env.eval_set.length ∧
    ∀ i : Nat, ((eval_results env)[i]?).map EvalResult.question_id =
      (env.eval_set[i]?).map EvalQuestion.id := by
  constructor
  · simp [eval_results]
  · intro i
    cases h : env.eval_set[i]? with
    | none => simp [eval_results, h]
    | some q => simp [eval_results, h, evaluate_question_qid]

/-- C6 as stated is false: for a question whose request returned a
non-success response, the produced result lacks the question, answer,
matched_keywords and has_citations fields. -/
theorem C6_counterexample :
    (evaluate_question ⟨3, "What is the notice period?", ["30 days"]⟩ ["doc1"]
        ⟨500, "", []⟩).question = none ∧
    (evaluate_question ⟨3, "What is the notice period?", ["30 days"]⟩ ["doc1"]
        ⟨500, "", []⟩).answer = none ∧
    (evaluate_question ⟨3, "What is the notice period?", ["30 days"]⟩ ["doc1"]
        ⟨500, "", []⟩).matched_keywords = none ∧
    (evaluate_question ⟨3, "What is the notice period?", ["30 days"]⟩ ["doc1"]
        ⟨500, "", []⟩).has_citations = none := by decide

/-- C6 amended: every result carries question_id and score; a result for
a successful (200) response additionally carries question, answer,
matched_keywords and has_citations; a result for a non-success response
instead carries only a reason string, with score 0.0. -/
theorem C6_result_fields (q : EvalQuestion) (ids : List String)
    (resp : AskResponse) :
    (evaluate_question q ids resp).question_id = q.id ∧
    (resp.status_code = 200 →
      (evaluate_question q ids resp).question = some q.question ∧
      (evaluate_question q ids resp).answer = some resp.answer ∧
      ((evaluate_question q ids resp).matched_keywords).isSome = true ∧
      ((evaluate_question q ids resp).has_citations).isSome = true ∧
      (evaluate_question q ids resp).reason = none) ∧
    (resp.status_code ≠ 200 →
      (evaluate_question q ids resp).score = 0 ∧
      ((evaluate_question q ids resp).reason).isSome = true ∧
      (evaluate_question q ids resp).question = none ∧
      (evaluate_question q ids resp).answer = none ∧
      (evaluate_question q ids resp).matched_keywords = none ∧
      (evaluate_question q ids resp).has_citations = none) := by
  refine ⟨evaluate_question_qid q ids resp, ?_, ?_⟩
  · intro h
    simp [evaluate_question, h]
  · intro h
    simp [evaluate_question, h]

/-- Witness for C6 amended at concrete inputs: a 200 response and a 500
response. -/
theorem C6_result_fields_witness :
    ((evaluate_question ⟨3, "What is the notice period?", ["30 days"]⟩ ["doc1"]
        ⟨200, "30 days notice", []⟩).question = some "What is the notice period?" ∧
      (evaluate_question ⟨3, "What is the notice period?", ["30 days"]⟩ ["doc1"]
        ⟨200, "30 days notice", []⟩).answer = some "30 days notice" ∧
      ((evaluate_question ⟨3, "What is the notice period?", ["30 days"]⟩ ["doc1"]
        ⟨200, "30 days notice", []⟩).matched_keywords).isSome = true ∧
      ((evaluate_question ⟨3, "What is the notice period?", ["30 days"]⟩ ["doc1"]
        ⟨200, "30 days notice", []⟩).has_citations).isSome = true ∧
      (evaluate_question ⟨3, "What is the notice period?", ["30 days"]⟩ ["doc1"]
        ⟨200, "30 days notice", []⟩).reason = none) ∧
    ((evaluate_question ⟨3, "What is the notice period?", ["30 days"]⟩ ["doc1"]
        ⟨500, "", []⟩).score = 0 ∧
      ((evaluate_question ⟨3, "What is the notice period?", ["30 days"]⟩ ["doc1"]
        ⟨500, "", []⟩).reason).isSome = true ∧
      (evaluate_question ⟨3, "What is the notice period?", ["30 days"]⟩ ["doc1"]
        ⟨500, "", []⟩).question = none ∧
      (evaluate_question ⟨3, "What is the notice period?", ["30 days"]⟩ ["doc1"]
        ⟨500, "", []⟩).answer = none ∧
      (evaluate_question ⟨3, "What is the notice period?", ["30 days"]⟩ ["doc1"]
        ⟨500, "", []⟩).matched_keywords = none ∧
      (evaluate_question ⟨3, "What is the notice period?", ["30 days"]⟩ ["doc1"]
        ⟨500, "", []⟩).has_citations = none) :=
  ⟨(C6_result_fields ⟨3, "What is the notice period?", ["30 days"]⟩ ["doc1"]
      ⟨200, "30 days notice", []⟩).2.1 rfl,
   (C6_result_fields ⟨3, "What is the notice period?", ["30 days"]⟩ ["doc1"]
      ⟨500, "", []⟩).2.2 (by decide)⟩

/-- C1: for a successful answer, the matched keywords are exactly the
expected keywords occurring case-insensitively as substrings of the
answer, and the base score is their count divided by the keyword count,
or 0.0 for an empty keyword list. -/
theorem C1_base_score (q : EvalQuestion) (ids : List String)
    (resp : AskResponse) (hs : resp.status_code = 200) :
    ∃ m, (evaluate_question q ids resp).matched_keywords = some m ∧
      (∀ k, k ∈ m ↔ k ∈ q.expected_keywords ∧
          strIn (pyLower k) (pyLower resp.answer) = true) ∧
      (q.expected_keywords ≠ [] →
        baseScore q (pyLower resp.answer) =
          (m.length : ℚ) / (q.expected_keywords.length : ℚ)) ∧
      (q.expected_keywords = [] → baseScore q (pyLower resp.answer) = 0) := by
  refine ⟨matchedKeywords q (pyLower resp.answer), ?_, ?_, ?_, ?_⟩
  · simp [evaluate_question, hs]
  · intro k
    simp [matchedKeywords, List.mem_filter]
  · intro hne
    rw [baseScore, if_pos (List.length_pos.mpr hne), qdiv_eq]
  · intro he
    simp [baseScore, he]

/-- Witness for C1 at a concrete question and a concrete 200 response. -/
theorem C1_base_score_witness :
    ∃ m, (evaluate_question ⟨1, "Which state governs?", ["California", "two years"]⟩
        ["d1"] ⟨200, "California law applies", []⟩).matched_keywords = some m ∧
      (∀ k, k ∈ m ↔ k ∈ ["California", "two years"] ∧
          strIn (pyLower k) (pyLower "California law applies") = true) ∧
      ((["California", "two years"] : List String) ≠ [] →
        baseScore ⟨1, "Which state governs?", ["California", "two years"]⟩
            (pyLower "California law applies") =
          (m.length : ℚ) / ((["California", "two years"] : List String).length : ℚ)) ∧
      ((["California", "two years"] : List String) = [] →
        baseScore ⟨1, "Which state governs?", ["California", "two years"]⟩
          (pyLower "California law applies") = 0) :=
  C1_base_score ⟨1, "Which state governs?", ["California", "two years"]⟩
    ["d1"] ⟨200, "California law applies", []⟩ rfl

/-- C2: for a successful answer the negative-signal penalty (times 0.5 on
any of the fixed phrases) is applied to the base score before the fixed
0.1 citation bonus is added, and a half-matched, negative, cited answer
scores 0.5*0.5 + 0.1 = 0.35. -/
theorem C2_penalty_before_bonus (q : EvalQuestion) (ids : List String)
    (resp : AskResponse) (hs : resp.status_code = 200) :
    (evaluate_question q ids resp).score =
      min ((if negative_phrases.any (fun phrase =>
                strIn phrase (pyLower resp.answer)) = true
            then baseScore q (pyLower resp.answer) * (1 / 2 : ℚ)
            else baseScore q (pyLower resp.answer)) +
          (if 0 < resp.citations.length then (1 / 10 : ℚ) else 0)) 1 ∧
    (evaluate_question ⟨2, "Which state law governs?", ["California", "two years"]⟩
        ["d1"] ⟨200, "California governs; the term was not found here", ["c1"]⟩).score
      = (0.35 : ℚ) := by
  constructor
  · have hscore : (evaluate_question q ids resp).score = successScore q resp := by
      simp [evaluate_question, hs]
    rw [hscore]
    unfold successScore
    rw [pymin_eq_min]
    by_cases hneg : negative_phrases.any (fun phrase =>
        strIn phrase (pyLower resp.answer)) = true <;>
      by_cases hcit : 0 < resp.citations.length <;>
        simp [hneg, hcit, qmul_eq, qadd_eq, mkRat_half, mkRat_tenth]
  · have h : (evaluate_question
        ⟨2, "Which state law governs?", ["California", "two years"]⟩
        ["d1"] ⟨200, "California governs; the term was not found here", ["c1"]⟩).score
        = mkRat 7 20 := by decide
    rw [h]
    norm_num [Rat.mkRat_eq_divInt, Rat.divInt_eq_div]

/-- Witness for C2: the half-matched, negative, cited answer at concrete
inputs scores exactly 0.35. -/
theorem C2_penalty_before_bonus_witness :
    (evaluate_question ⟨2, "Which state law governs?", ["California", "two years"]⟩
        ["d1"] ⟨200, "California governs; the term was not found here", ["c1"]⟩).score
      = (0.35 : ℚ) :=
  (C2_penalty_before_bonus ⟨0, "", []⟩ [] ⟨200, "", []⟩ rfl).2

/-- C7: whatever the answer, keyword set, negative phrases and citations,
the final per-question score lies in the closed interval from 0.0 to 1.0. -/
theorem C7_score_in_unit_interval (q : EvalQuestion) (ids : List String)
    (resp : AskResponse) :
    0 ≤ (evaluate_question q ids resp).score ∧
      (evaluate_question q ids resp).score ≤ 1 := by
  by_cases hs : resp.status_code = 200
  · have hscore : (evaluate_question q ids resp).score = successScore q resp := by
      simp [evaluate_question, hs]
    rw [hscore]
    unfold successScore
    rw [pymin_eq_min]
    have h0 := baseScore_nonneg q (pyLower resp.answer)
    have h1 := baseScore_le_one q (pyLower resp.answer)
    constructor
    · refine le_min ?_ zero_le_one
      by_cases hneg : negative_phrases.any (fun phrase =>
          strIn phrase (pyLower resp.answer)) = true <;>
        by_cases hcit : 0 < resp.citations.length <;>
          simp [hneg, hcit, qmul_eq, qadd_eq, mkRat_half, mkRat_tenth] <;>
            linarith
    · exact min_le_right _ _
  · have hscore : (evaluate_question q ids resp).score = 0 := by
      simp [evaluate_question, hs]
    rw [hscore]
    exact ⟨le_refl 0, zero_le_one⟩

/-- C8 as stated is false in its string values: at average score 0.9 the
source grade is the emoji-prefixed string, not the bare word EXCELLENT. -/
theorem C8_counterexample :
    (mkRat 8 10 : ℚ) ≤ mkRat 9 10 ∧ grade (mkRat 9 10) ≠ "EXCELLENT" ∧
      grade (mkRat 9 10) = "🌟 EXCELLENT" := by decide

/-- C8 amended: the grade is a function of the average score with the
fixed thresholds 0.8, 0.7 and 0.5, with each grade string carrying the
emoji prefix of the source (🌟 EXCELLENT, ✅ GOOD, ⚠️  FAIR, ❌ NEEDS
IMPROVEMENT). -/
theorem C8_grade_banding (a : ℚ) :
    (mkRat 8 10 : ℚ) = 0.8 ∧ (mkRat 7 10 : ℚ) = 0.7 ∧ (mkRat 5 10 : ℚ) = 0.5 ∧
    (mkRat 8 10 ≤ a → grade a = "🌟 EXCELLENT") ∧
    (mkRat 7 10 ≤ a → a < mkRat 8 10 → grade a = "✅ GOOD") ∧
    (mkRat 5 10 ≤ a → a < mkRat 7 10 → grade a = "⚠️  FAIR") ∧
    (a < mkRat 5 10 → grade a = "❌ NEEDS IMPROVEMENT") := by
  refine ⟨by norm_num [Rat.mkRat_eq_divInt, Rat.divInt_eq_div],
    mkRat_seven_tenths,
    by norm_num [Rat.mkRat_eq_divInt, Rat.divInt_eq_div], ?_, ?_, ?_, ?_⟩
  · intro h
    rw [grade, if_pos h]
  · intro h1 h2
    rw [grade, if_neg (not_le.mpr h2), if_pos h1]
  · intro h1 h2
    have h8 : ¬ mkRat 8 10 ≤ a := by
      intro hc
      have : (mkRat 7 10 : ℚ) ≤ mkRat 8 10 := by decide
      exact absurd (le_trans this hc) (not_le.mpr h2)
    rw [grade, if_neg h8, if_neg (not_le.mpr h2), if_pos h1]
  · intro h
    have h5 : ¬ mkRat 5 10 ≤ a := not_le.mpr h
    have h7 : ¬ mkRat 7 10 ≤ a := by
      intro hc
      have : (mkRat 5 10 : ℚ) ≤ mkRat 7 10 := by decide
      exact h5 (le_trans this hc)
    have h8 : ¬ mkRat 8 10 ≤ a := by
      intro hc
      have : (mkRat 5 10 : ℚ) ≤ mkRat 8 10 := by decide
      exact h5 (le_trans this hc)
    rw [grade, if_neg h8, if_neg h7, if_neg h5]

/-- Witness for C8: one concrete average score in each grade band. -/
theorem C8_grade_banding_witness :
    grade (mkRat 9 10) = "🌟 EXCELLENT" ∧ grade (mkRat 75 100) = "✅ GOOD" ∧
    grade (mkRat 6 10) = "⚠️  FAIR" ∧ grade (mkRat 1 10) = "❌ NEEDS IMPROVEMENT" :=
  ⟨(C8_grade_banding (mkRat 9 10)).2.2.2.1 (by decide),
   (C8_grade_banding (mkRat 75 100)).2.2.2.2.1 (by decide) (by decide),
   (C8_grade_banding (mkRat 6 10)).2.2.2.2.2.1 (by decide) (by decide),
   (C8_grade_banding (mkRat 1 10)).2.2.2.2.2.2 (by decide)⟩

theorem run_evaluation_completes (env : Env) (s : EvalSummary)
    (h : run_evaluation env = RunResult.completes s) :
    s.results = eval_results env ∧ (eval_results env).length ≠ 0 ∧
    s.total_questions = (eval_results env).length ∧
    s.average_score = qdiv (pysum ((eval_results env).map EvalResult.score))
      ((eval_results env).length : ℚ) ∧
    s.pass_rate = qdiv ((passCount (eval_results env) : ℚ))
      (((eval_results env).length : ℚ)) := by
  unfold run_evaluation at h
  split at h
  · exact absurd h (by simp)
  · split at h
    · exact absurd h (by simp)
    · split at h
      · exact absurd h (by simp)
      · split at h
        · exact absurd h (by simp)
        · rename_i hlen
          injection h with h
          subst h
          exact ⟨rfl, hlen, rfl, rfl, rfl⟩

/-- C5: for the non-empty results sequence of a completed run, the
reported average_score is the arithmetic mean of the individual scores and
the pass_rate is the number of scores at least 0.7 divided by the number
of results. -/
theorem C5_aggregates (env : Env) (s : EvalSummary)
    (h : run_evaluation env = RunResult.completes s) :
    s.results ≠ [] ∧
    s.total_questions = s.results.length ∧
    s.average_score = (s.results.map EvalResult.score).sum / (s.results.length : ℚ) ∧
    s.pass_rate =
      ((s.results.filter fun r => decide ((0.7 : ℚ) ≤ r.score)).length : ℚ) /
        (s.results.length : ℚ) := by
  obtain ⟨hres, hlen, htot, havg, hpass⟩ := run_evaluation_completes env s h
  rw [← hres] at hlen htot havg hpass
  refine ⟨List.length_pos.mp (Nat.pos_of_ne_zero hlen), htot, ?_, ?_⟩
  · rw [havg, qdiv_eq, pysum_eq]
  · rw [hpass, qdiv_eq, passCount]
    simp only [← mkRat_seven_tenths]

/-- Witness for C5: a one-question run that completes with all scores 1. -/
theorem C5_aggregates_witness :
    sampleSummaryC5.results ≠ [] ∧
    sampleSummaryC5.total_questions = sampleSummaryC5.results.length ∧
    sampleSummaryC5.average_score =
      (sampleSummaryC5.results.map EvalResult.score).sum /
        (sampleSummaryC5.results.length : ℚ) ∧
    sampleSummaryC5.pass_rate =
      ((sampleSummaryC5.results.filter fun r =>
          decide ((0.7 : ℚ) ≤ r.score)).length : ℚ) /
        (sampleSummaryC5.results.length : ℚ) :=
  C5_aggregates sampleEnvC5 sampleSummaryC5 (by decide)

/-- C4: a failed health probe (unreachable or non-200) or an empty upload
aborts the run with exit code 1 and no summary; a non-success response to
an individual question only zeroes that score with a reason and never
aborts a healthy run; a summary is produced exactly for the full results
sequence, one result per question. -/
theorem C4_setup_abort (env : Env) :
    ((env.health = none ∨ (∃ c, env.health = some c ∧ c ≠ 200) ∨
        env.uploaded_doc_ids = []) →
      run_evaluation env = RunResult.exits 1 ∧
        ∀ s, run_evaluation env ≠ RunResult.completes s) ∧
    (∀ q ids resp, resp.status_code ≠ 200 →
      (evaluate_question q ids resp).score = 0 ∧
        ((evaluate_question q ids resp).reason).isSome = true) ∧
    (env.health = some 200 → env.uploaded_doc_ids ≠ [] →
      ∀ c, run_evaluation env ≠ RunResult.exits c) ∧
    (∀ s, run_evaluation env = RunResult.completes s →
      s.results = eval_results env ∧ s.results.length = env.eval_set.length) := by
  refine ⟨?_, ?_, ?_, ?_⟩
  · intro hyp
    have habort : run_evaluation env = RunResult.exits 1 := by
      rcases hyp with h | ⟨c, hc, hcne⟩ | hdocs
      · simp [run_evaluation, h]
      · simp [run_evaluation, hc, hcne]
      · cases hh : env.health with
        | none => simp [run_evaluation, hh]
        | some status =>
          by_cases h200 : status = 200
          · simp [run_evaluation, hh, h200, hdocs]
          · simp [run_evaluation, hh, h200]
    exact ⟨habort, fun s hs => by rw [habort] at hs; exact RunResult.noConfusion hs⟩
  · intro q ids resp hbad
    simp [evaluate_question, hbad]
  · intro h200 hdocs c
    have hde : env.uploaded_doc_ids.isEmpty = false := by
      cases hd : env.uploaded_doc_ids with
      | nil => exact absurd hd hdocs
      | cons a l => rfl
    simp [run_evaluation, h200, hde]
    split <;> simp
  · intro s hs
    obtain ⟨hres, _, _, _, _⟩ := run_evaluation_completes env s hs
    refine ⟨hres, ?_⟩
    rw [hres]
    simp [eval_results]

/-- Witness for C4: an unreachable health endpoint aborts with exit code
1, and a concrete 500 answer is scored 0.0 with a reason. -/
theorem C4_setup_abort_witness :
    (run_evaluation sampleEnvDown = RunResult.exits 1 ∧
      ∀ s, run_evaluation sampleEnvDown ≠ RunResult.completes s) ∧
    ((evaluate_question ⟨9, "qq", ["k"]⟩ [] ⟨500, "", []⟩).score = 0 ∧
      ((evaluate_question ⟨9, "qq", ["k"]⟩ [] ⟨500, "", []⟩).reason).isSome = true) :=
  ⟨(C4_setup_abort sampleEnvDown).1 (Or.inl rfl),
   (C4_setup_abort sampleEnvDown).2.1 ⟨9, "qq", ["k"]⟩ [] ⟨500, "", []⟩ (by decide)⟩

theorem dateToIso_ne_empty (d : Nat × Nat × Nat) : dateToIso d ≠ "" := by
  intro h
  have hlen : (dateToIso d).length = 0 := by rw [h]; rfl
  have hone : ("-" : String).length = 1 := rfl
  unfold dateToIso at hlen
  simp only [String.length_append, hone] at hlen
  omega

/-- C3: extract_fields is a total function: on every input, including the
empty string and documents beyond the truncation threshold, it returns a
well-formed ExtractedFields value (optional fields are never empty
strings), with internal pattern errors degraded to absent/empty by the
recovery wrappers. -/
theorem C3_extract_fields_total (text : String) :
    WellFormedExtracted (extract_fields text) ∧
    extract_fields "" =
      { parties := [], effective_date := none, governing_law := none,
        liability_cap := none, signatures := [] } ∧
    (∀ msg, recoverOpt (α := String) (Except.error msg) = none) ∧
    (∀ msg, recoverList (α := String) (Except.error msg) = []) := by
  refine ⟨⟨?_, ?_⟩, by decide, fun msg => rfl, fun msg => rfl⟩
  · show recoverOpt (extractEffectiveDate (truncateDoc text.toList)) ≠ some ""
    unfold extractEffectiveDate
    cases firstLabeledDate (truncateDoc text.toList) dateLabels with
    | none => simp [recoverOpt]
    | some d => simpa [recoverOpt] using dateToIso_ne_empty d
  · show govLawOf (truncateDoc text.toList) ≠ some ""
    unfold govLawOf
    rcases h : dropAfter ("governed by the laws of".toList) (truncateDoc text.toList)
      with _ | rest
    · simp [h]
    · simp only [h]
      split
      · simp
      · rename_i hne
        intro hc
        exact hne (Option.some.inj hc)

/-- Witness for C3 at a concrete contract text. -/
theorem C3_extract_fields_total_witness :
    WellFormedExtracted (extract_fields ndaSampleText) :=
  (C3_extract_fields_total ndaSampleText).1

set_option maxRecDepth 100000 in
example : (extract_fields ndaSampleText).parties =
    ["Disclosing Party", "Receiving Party"] := by decide

set_option maxRecDepth 100000 in
example : (extract_fields ndaSampleText).effective_date = some "2024-01-15" := by
  decide

set_option maxRecDepth 100000 in
example : (extract_fields ndaSampleText).governing_law =
    some "the State of California" := by decide

set_option maxRecDepth 100000 in
example : (extract_fields ndaSampleText).liability_cap = some 100000 := by decide

set_option maxRecDepth 100000 in
example : (extract_fields ndaSampleText).signatures =
    [("John Smith", "CEO", "Acme Corporation"),
     ("Jane Doe", "CTO", "Tech Solutions Inc")] := by decide

end ContractAi
